import Mathlib

/-!
Shallow embedding of `src/src/webapp/azext_webapp/tunnel.py` (the `TunnelServer`
class and its helpers).  Bytes are modelled as `Nat` values below 256, Python
`str` values as Lean `String`/`List Char`, raised exceptions as `Except`, and
the observable side effects of each method (socket operations, log events) as
explicit event traces.  Environment inputs that the Python code obtains from
the operating system (the result of `connect_ex`, the bytes delivered by
`recv_into`, the messages delivered by `ws.recv()`, the HTTP status and body of
the status probe) are passed in as explicit parameters or scripts.
-/

namespace Tunnel

/-- Substring test: `pfx a b` holds when the list `a` is an initial segment of
`b`.  Used to model the Python `in` operator on strings. -/
def pfx : List Char → List Char → Bool
  | [], _ => true
  | _ :: _, [] => false
  | a :: as, b :: bs => a = b && pfx as bs

/-- Model of the Python expression `needle in hay` for strings: `needle`
occurs as a contiguous substring of `hay`. -/
def containsSub (needle : List Char) : List Char → Bool
  | [] => needle.isEmpty
  | c :: rest => pfx needle (c :: rest) || containsSub needle rest

/-- Model of Python `str.upper()` restricted to the ASCII range used by the
markers the code tests for. -/
def pyUpper (s : List Char) : List Char := s.map Char.toUpper

/-- The RFC 4648 base64 alphabet, as used by Python `base64.b64encode`. -/
def b64Alphabet : List Char :=
  ['A','B','C','D','E','F','G','H','I','J','K','L','M','N','O','P','Q','R',
   'S','T','U','V','W','X','Y','Z','a','b','c','d','e','f','g','h','i','j',
   'k','l','m','n','o','p','q','r','s','t','u','v','w','x','y','z','0','1',
   '2','3','4','5','6','7','8','9','+','/']

/-- Character of the base64 alphabet at index `n` (n < 64). -/
def b64Char (n : Nat) : Char := b64Alphabet.getD n '?'

/-- Model of Python `base64.b64encode` on a byte sequence, producing the
base64 text (with `=` padding). -/
def b64encode : List Nat → List Char
  | b1 :: b2 :: b3 :: rest =>
    b64Char (b1 / 4) :: b64Char (b1 % 4 * 16 + b2 / 16) ::
    b64Char (b2 % 16 * 4 + b3 / 64) :: b64Char (b3 % 64) :: b64encode rest
  | [b1, b2] =>
    [b64Char (b1 / 4), b64Char (b1 % 4 * 16 + b2 / 16), b64Char (b2 % 16 * 4), '=']
  | [b1] =>
    [b64Char (b1 / 4), b64Char (b1 % 4 * 16), '=', '=']
  | [] => []

/-- UTF-8 bytes of an ASCII string (all strings the claims use are ASCII, so
`Char.toNat` coincides with Python `str.encode()`). -/
def asciiBytes (s : String) : List Nat := s.toList.map Char.toNat

/-- Model of `TunnelServer.create_basic_auth`: the username bytes, a `:`
(byte 58), and the password bytes are concatenated and base64-encoded.
(`'\x7b\x7d:\x7b\x7d'.format(user, pass).encode()` then `b64encode`.) -/
def create_basic_auth (remote_user_name remote_password : List Nat) : List Char :=
  b64encode (remote_user_name ++ 58 :: remote_password)

/-- Observable events of the `is_port_open` probe. -/
inductive ProbeEvent where
  | socketOpened
  | loggedPortNotOpen
  | loggedPortOpen
  | socketClosed
  deriving DecidableEq, Repr

/-- Model of `TunnelServer.is_port_open`.  The parameter `connect_ex` is the
result of `sock.connect_ex(('', local_port))`: `0` means the probe connect
succeeded (something already listens on the port).  The `with closing(...)`
block opens the probe socket first and closes it on every exit path.  The
code returns `False` when the connect succeeded and `True` when it failed. -/
def is_port_open (connect_ex : Int) : List ProbeEvent × Bool :=
  if connect_ex = 0 then
    ([.socketOpened, .loggedPortNotOpen, .socketClosed], false)
  else
    ([.socketOpened, .loggedPortOpen, .socketClosed], true)

/-- The message of the `CLIError` raised by `TunnelServer.__init__` when the
port check fails (the spec calls this error `PortUnavailable`). -/
def portUnavailableMsg : String := "Defined port is currently unavailable"

/-- Observable events of `TunnelServer.__init__` (log-only events omitted). -/
inductive InitEvent where
  | probed
  | socketCreated
  | setReuseAddr
  | socketBound
  deriving DecidableEq, Repr

/-- The state of a fully constructed `TunnelServer`. -/
structure ServerState where
  local_addr : String
  local_port : Nat
  remote_addr : String
  remote_user_name : List Nat
  remote_password : List Nat
  sockBound : Bool
  deriving DecidableEq, Repr

/-- Model of `TunnelServer.__init__`.  It stores the local address and port,
runs the `is_port_open` probe (whose environment input is `connect_ex`),
raises `CLIError` when the probe returns `False`, and only otherwise creates,
configures and binds the listening socket. -/
def tunnelServerInit (local_addr : String) (local_port : Nat)
    (remote_addr : String) (remote_user_name remote_password : List Nat)
    (connect_ex : Int) : List InitEvent × Except String ServerState :=
  if (is_port_open connect_ex).2 = false then
    ([.probed], .error portUnavailableMsg)
  else
    ([.probed, .socketCreated, .setReuseAddr, .socketBound],
     .ok { local_addr := local_addr, local_port := local_port,
           remote_addr := remote_addr, remote_user_name := remote_user_name,
           remote_password := remote_password, sockBound := true })

/-- The error raised by `is_port_set_to_default` when the HTTP status of the
status probe is not 200 (a `CLIError`; the spec calls it `ConnectError`).
It carries the URL, the HTTP status and the reason of the response. -/
structure ConnectError where
  url : String
  status : Nat
  reason : String
  deriving DecidableEq, Repr

/-- The URL the status probe requests:
`https://{remote_addr}.scm.azurewebsites.net/AppServiceTunnel/Tunnel.ashx?GetStatus`. -/
def statusUrl (remote_addr : String) : String :=
  "https://" ++ remote_addr ++ ".scm.azurewebsites.net/AppServiceTunnel/Tunnel.ashx?GetStatus"

/-- Log events of the status probe. -/
inductive ProbeLog where
  | infoStatusMsg (msg : String)
  | warnedFailMarker (msg : String)
  deriving DecidableEq, Repr

/-- True when the probe log contains the remote-debugging warning. -/
def warnedFail (l : List ProbeLog) : Bool :=
  l.any fun e => match e with
    | .warnedFailMarker _ => true
    | _ => false

/-- Model of `TunnelServer.is_port_set_to_default`.  The environment inputs
are the HTTP response: its `status`, its `reason` and its decoded body `msg`.
A non-200 status raises `CLIError` with URL, status and reason.  Otherwise the
body is logged; if `'FAIL' in msg.upper()` a warning is logged; the returned
boolean is `'2222' in msg` on the raw body. -/
def is_port_set_to_default (remote_addr : String) (status : Nat)
    (reason : String) (msg : String) : List ProbeLog × Except ConnectError Bool :=
  if status ≠ 200 then
    ([], .error ⟨statusUrl remote_addr, status, reason⟩)
  else
    let logs0 := [ProbeLog.infoStatusMsg msg]
    let logs1 := if containsSub "FAIL".toList (pyUpper msg.toList)
                 then logs0 ++ [ProbeLog.warnedFailMarker msg] else logs0
    if containsSub "2222".toList msg.toList then (logs1, .ok true)
    else (logs1, .ok false)

/-! ### The two relay pumps

`listen_to_client` and `listen_to_web_socket` each run an unbounded
`while True` loop whose body is wrapped in a bare `try/except`.  We model one
loop iteration as consuming one element of a finite environment script: what
the blocking read/receive delivered, or that this iteration's I/O raised an
exception.  A finite script models a finite observation window of the
infinite loop: when the script is exhausted the pump is still running. -/

/-- Events observable from the relay pumps. -/
inductive RelayEvent where
  | sentBinary (data : List Nat)
  | sentAll (data : List Nat)
  | closedClient
  | closedWs
  | tracebackPrinted
  deriving DecidableEq, Repr

/-- One iteration's environment input for `listen_to_client`:
`ok data` means `client.recv_into` delivered `data` (so `nbytes =
data.length`, zero on orderly close) and the send (if reached) succeeded;
`recvErr` means `recv_into` raised; `sendErr data` means `recv_into`
delivered `data` but `ws_socket.send_binary` raised. -/
inductive ClientCycle where
  | ok (data : List Nat)
  | recvErr
  | sendErr (data : List Nat)
  deriving DecidableEq, Repr

/-- How a pump invocation ends: still `running` when the observation script
is exhausted, or `finished ret` when the Python function returned — `ret` is
`none` for the normal `break` path (the function falls off the end) and
`some false` for the `return False` in the `except` handler. -/
inductive PumpOutcome where
  | running
  | finished (ret : Option Bool)
  deriving DecidableEq, Repr

/-- The bytes the local pump sends: `buf = bytearray(4096)` is filled by
`client.recv_into(buf, 4096)` with `data` (so `nbytes = data.length` and the
tail of the buffer keeps its zeros), and the slice `buf[0:nbytes]` is taken. -/
def recvSlice (data : List Nat) : List Nat :=
  let buf : List Nat := List.replicate 4096 0
  let nbytes := data.length
  let buf1 := data ++ buf.drop nbytes
  buf1.take nbytes

/-- The body of one `listen_to_client` iteration, before the `except`
handler: if `nbytes > 0` the slice `buf[0:nbytes]` is sent as one binary
message, else both endpoints are closed and the loop breaks.  An exception
anywhere in the body is `.error`. -/
def clientCycleBody (c : ClientCycle) : Except Unit (List RelayEvent × Bool) :=
  match c with
  | .ok data =>
    if 0 < data.length then
      .ok ([.sentBinary (recvSlice data)], true)
    else
      .ok ([.closedClient, .closedWs], false)
  | .recvErr => .error ()
  | .sendErr data =>
    if 0 < data.length then .error ()
    else .ok ([.closedClient, .closedWs], false)

/-- Model of `TunnelServer.listen_to_client`: the `while True` loop with its
bare `except` handler, which prints the traceback, closes both endpoints and
returns `False`.  The result type is `Except` so that an uncaught exception
would show up as `.error`. -/
def listen_to_client : List ClientCycle → Except Unit (List RelayEvent × PumpOutcome)
  | [] => .ok ([], .running)
  | c :: rest =>
    match clientCycleBody c with
    | .error _ =>
      .ok ([.tracebackPrinted, .closedClient, .closedWs], .finished (some false))
    | .ok (evts, false) => .ok (evts, .finished none)
    | .ok (evts, true) =>
      match listen_to_client rest with
      | .ok (evts2, r) => .ok (evts ++ evts2, r)
      | .error e => .error e

/-- One iteration's environment input for `listen_to_web_socket`:
`ok data` means `ws_socket.recv()` delivered `data` (empty on close) and the
`client.sendall` (if reached) succeeded; `recvErr` means `recv` raised;
`sendErr data` means `recv` delivered `data` but `sendall` raised. -/
inductive WsCycle where
  | ok (data : List Nat)
  | recvErr
  | sendErr (data : List Nat)
  deriving DecidableEq, Repr

/-- The body of one `listen_to_web_socket` iteration: `data = ws.recv()`;
if `data` is truthy (non-empty) the full message is written with
`client.sendall`, else both endpoints are closed and the loop breaks. -/
def wsCycleBody (c : WsCycle) : Except Unit (List RelayEvent × Bool) :=
  match c with
  | .ok data =>
    if 0 < data.length then
      .ok ([.sentAll data], true)
    else
      .ok ([.closedClient, .closedWs], false)
  | .recvErr => .error ()
  | .sendErr data =>
    if 0 < data.length then .error ()
    else .ok ([.closedClient, .closedWs], false)

/-- Model of `TunnelServer.listen_to_web_socket`: the `while True` loop with
its bare `except` handler (traceback, close both, `return False`). -/
def listen_to_web_socket : List WsCycle → Except Unit (List RelayEvent × PumpOutcome)
  | [] => .ok ([], .running)
  | c :: rest =>
    match wsCycleBody c with
    | .error _ =>
      .ok ([.tracebackPrinted, .closedClient, .closedWs], .finished (some false))
    | .ok (evts, false) => .ok (evts, .finished none)
    | .ok (evts, true) =>
      match listen_to_web_socket rest with
      | .ok (evts2, r) => .ok (evts ++ evts2, r)
      | .error e => .error e

/-! ### The session loop -/

/-- Numeric value of `socket.IPPROTO_TCP`. -/
def IPPROTO_TCP : Nat := 6

/-- Numeric value of `socket.TCP_NODELAY`. -/
def TCP_NODELAY : Nat := 1

/-- Numeric value of `ssl.CERT_NONE`. -/
def CERT_NONE : Nat := 0

/-- The arguments `TunnelServer.listen` passes to `create_connection` for
each accepted local client. -/
structure ConnectionConfig where
  url : String
  sockopt : List (Nat × Nat × Nat)
  header : List String
  certReqs : Nat
  enableMultithread : Bool
  deriving DecidableEq, Repr

/-- Model of the connection set-up inside `TunnelServer.listen`: the URL is
`wss://{remote_addr}.scm.azurewebsites.net/AppServiceTunnel/Tunnel.ashx`, the
socket option tuple enables `TCP_NODELAY`, the single extra header is
`Authorization: Basic {basic_auth_string}`, `sslopt` disables certificate
checking (`cert_reqs: ssl.CERT_NONE`) and `enable_multithread` is `True`. -/
def buildConnection (remote_addr : String) (basic_auth_string : String) :
    ConnectionConfig :=
  { url := "wss://" ++ remote_addr ++ ".scm.azurewebsites.net/AppServiceTunnel/Tunnel.ashx"
    sockopt := [(IPPROTO_TCP, TCP_NODELAY, 1)]
    header := ["Authorization: Basic " ++ basic_auth_string]
    certReqs := CERT_NONE
    enableMultithread := true }

/-- Observable events of the accept loop in `TunnelServer.listen`. -/
inductive LoopEvent where
  | listenCalled (backlog : Nat)
  | accepted
  | setTimeoutSecs (n : Nat)
  | tracingSet (enabled : Bool)
  | remoteOpened (cfg : ConnectionConfig)
  | startedDebuggerThread
  | startedWebSocketThread
  | joinedDebuggerThread
  | joinedWebSocketThread
  deriving DecidableEq, Repr

/-- One iteration of the accept loop: accept a client, set its 60 second
timeout, toggle websocket tracing from the logger verbosity, open one fresh
remote stream, start the two pump threads, join both. -/
def iterTrace (verbose : Bool) (cfg : ConnectionConfig) : List LoopEvent :=
  [.accepted, .setTimeoutSecs 60, .tracingSet verbose, .remoteOpened cfg,
   .startedDebuggerThread, .startedWebSocketThread,
   .joinedDebuggerThread, .joinedWebSocketThread]

/-- `n` further iterations of the accept loop starting at iteration index
`i`; `verbose i` is the per-iteration logger-verbosity environment input. -/
def loopFrom (verbose : Nat → Bool) (cfg : ConnectionConfig) :
    Nat → Nat → List LoopEvent
  | _, 0 => []
  | i, n + 1 => iterTrace (verbose i) cfg ++ loopFrom verbose cfg (i + 1) n

/-- Model of `TunnelServer.listen`, observed for `iters` iterations of its
infinite loop: `self.sock.listen(100)` once, then the per-client iterations. -/
def listen (verbose : Nat → Bool) (cfg : ConnectionConfig) (iters : Nat) :
    List LoopEvent :=
  .listenCalled 100 :: loopFrom verbose cfg 0 iters

/-- Running count of active ConnectionPairs: a pair becomes active at
`accepted` and inactive when the second (websocket) pump thread is joined. -/
def pairStep (s : Nat) : LoopEvent → Nat
  | .accepted => s + 1
  | .joinedWebSocketThread => s - 1
  | _ => s

/-- Number of active ConnectionPairs after a prefix of the loop trace. -/
def activeAfter (l : List LoopEvent) : Nat := l.foldl pairStep 0

/-! ### Theorems -/

/-- C4: `TunnelServer` construction on a port succeeds iff the port is
unoccupied at construction time (the `connect_ex` probe fails, i.e. is
non-zero); when the port is occupied (`connect_ex = 0`) construction raises
the port-unavailable `CLIError` and the event trace shows that no listening
socket was created or bound. -/
theorem init_succeeds_iff_port_free (local_addr : String) (local_port : Nat)
    (remote_addr : String) (u p : List Nat) (connect_ex : Int) :
    tunnelServerInit local_addr local_port remote_addr u p connect_ex =
      (if connect_ex = 0
       then ([InitEvent.probed], Except.error portUnavailableMsg)
       else ([InitEvent.probed, .socketCreated, .setReuseAddr, .socketBound],
             Except.ok ⟨local_addr, local_port, remote_addr, u, p, true⟩)) ∧
    ((∃ st, (tunnelServerInit local_addr local_port remote_addr u p connect_ex).2
        = Except.ok st) ↔ connect_ex ≠ 0) ∧
    InitEvent.socketCreated ∉ (tunnelServerInit local_addr local_port remote_addr u p 0).1 ∧
    InitEvent.socketBound ∉ (tunnelServerInit local_addr local_port remote_addr u p 0).1 := by
  by_cases h : connect_ex = 0 <;>
    simp [tunnelServerInit, is_port_open, h]

/-- C5 counterexample: the claim says `is_port_open` returns `true` when the
probe connect succeeds (`connect_ex = 0`, port occupied); the code returns
`false` there. -/
theorem is_port_open_claim_counterexample : ¬ ((is_port_open 0).2 = true) := by
  decide

/-- C5 amended: `is_port_open` opens a probe socket, attempts the connect,
and returns `false` when the connect succeeds (port occupied) and `true` when
it fails (port free); the probe socket is closed on every exit path. -/
theorem is_port_open_amended_semantics (connect_ex : Int) :
    ((is_port_open connect_ex).2 = true ↔ connect_ex ≠ 0) ∧
    (is_port_open connect_ex).1.head? = some ProbeEvent.socketOpened ∧
    (is_port_open connect_ex).1.getLast? = some ProbeEvent.socketClosed := by
  by_cases h : connect_ex = 0 <;> simp [is_port_open, h]

/-- C8: the Basic-Auth token is `base64(username ++ ":" ++ password)` (byte
58 is `:`), and for user `"u"` and password `"p"` the token is `dTpw`, so the
Authorization header value is `Basic dTpw`. -/
theorem basic_auth_token (u p : List Nat) :
    create_basic_auth u p = b64encode (u ++ 58 :: p) ∧
    create_basic_auth (asciiBytes "u") (asciiBytes "p") = "dTpw".toList ∧
    "Authorization: Basic " ++ String.mk (create_basic_auth (asciiBytes "u") (asciiBytes "p"))
      = "Authorization: Basic dTpw" :=
  ⟨rfl, by decide, by decide⟩

/-- A list is an initial segment of itself followed by anything. -/
lemma pfx_self_append (nd b : List Char) : pfx nd (nd ++ b) = true := by
  induction nd with
  | nil => rfl
  | cons c cs ih => simp [pfx, ih]

/-- An initial segment is in particular a substring. -/
lemma containsSub_of_pfx (nd hay : List Char) (h : pfx nd hay = true) :
    containsSub nd hay = true := by
  cases hay with
  | nil =>
    cases nd with
    | nil => rfl
    | cons c cs => simp [pfx] at h
  | cons c rest => simp [containsSub, h]

/-- Substring containment is stable under prepending. -/
lemma containsSub_append_left (a nd hay : List Char)
    (h : containsSub nd hay = true) : containsSub nd (a ++ hay) = true := by
  induction a with
  | nil => simpa using h
  | cons c cs ih => simp [containsSub, ih]

/-- A list placed in the middle of a longer list is a substring of it. -/
lemma containsSub_mid (a nd b : List Char) :
    containsSub nd (a ++ (nd ++ b)) = true :=
  containsSub_append_left a nd (nd ++ b)
    (containsSub_of_pfx nd (nd ++ b) (pfx_self_append nd b))

/-- String append concatenates the character lists. -/
lemma toList_append (a b : String) : (a ++ b).toList = a.toList ++ b.toList :=
  String.data_append a b

/-- The value part of the status probe, fully characterised: error with URL,
status and reason off the 200 branch, else the raw-body `2222` test. -/
lemma probe_snd_eq (remote_addr : String) (status : Nat) (reason msg : String) :
    (is_port_set_to_default remote_addr status reason msg).2 =
      (if status = 200 then Except.ok (containsSub "2222".toList msg.toList)
       else Except.error ⟨statusUrl remote_addr, status, reason⟩) := by
  simp only [is_port_set_to_default]
  split_ifs with h1 h2 h3 <;> simp_all

/-- The warning of the status probe, fully characterised: logged iff the
status was 200 and the uppercased body contains `FAIL`. -/
lemma probe_warned_eq (remote_addr : String) (status : Nat) (reason msg : String) :
    warnedFail (is_port_set_to_default remote_addr status reason msg).1 =
      (decide (status = 200) && containsSub "FAIL".toList (pyUpper msg.toList)) := by
  simp only [is_port_set_to_default]
  split_ifs with h1 h2 h3 <;> simp_all [warnedFail]

/-- Any body whose uppercase image puts `FAIL` in the middle triggers the
status-probe warning on the 200 branch. -/
lemma warned_of_mid (remote_addr reason pre mid post : String)
    (hmid : List.map Char.toUpper mid.toList = "FAIL".toList) :
    warnedFail (is_port_set_to_default remote_addr 200 reason (pre ++ (mid ++ post))).1 = true := by
  rw [probe_warned_eq]
  have hm : List.map Char.toUpper mid.data = "FAIL".data := by
    simpa [String.toList] using hmid
  have h1 : pyUpper (pre ++ (mid ++ post)).toList
      = pyUpper pre.toList ++ ("FAIL".toList ++ pyUpper post.toList) := by
    simp [pyUpper, String.toList, toList_append, hm]
  rw [h1, containsSub_mid]
  decide

/-- C6: the status probe raises `ConnectError` carrying the URL, HTTP status
and reason iff the response status is not 200; on a 200 response it returns
exactly whether the raw body contains `2222`; the `FAIL` marker influences
only the logged warning, never the returned boolean — so the two substring
checks are independent. -/
theorem status_probe_error_and_result (remote_addr : String) (status : Nat)
    (reason msg : String) :
    (is_port_set_to_default remote_addr status reason msg).2 =
      (if status = 200 then Except.ok (containsSub "2222".toList msg.toList)
       else Except.error ⟨statusUrl remote_addr, status, reason⟩) ∧
    warnedFail (is_port_set_to_default remote_addr status reason msg).1 =
      (decide (status = 200) && containsSub "FAIL".toList (pyUpper msg.toList)) :=
  ⟨probe_snd_eq remote_addr status reason msg,
   probe_warned_eq remote_addr status reason msg⟩

/-- C10: the failure-marker test uppercases the body first, so any case
variant of `fail` in a 200 body triggers the warning, while the returned
boolean is computed from the `2222` test on the raw body and is total on the
200 branch. -/
theorem status_probe_fail_marker_case_insensitive (remote_addr reason msg pre post : String) :
    (is_port_set_to_default remote_addr 200 reason msg).2 =
      Except.ok (containsSub "2222".toList msg.toList) ∧
    warnedFail (is_port_set_to_default remote_addr 200 reason (pre ++ ("fail" ++ post))).1 = true ∧
    warnedFail (is_port_set_to_default remote_addr 200 reason (pre ++ ("Fail" ++ post))).1 = true ∧
    warnedFail (is_port_set_to_default remote_addr 200 reason (pre ++ ("FAIL" ++ post))).1 = true := by
  refine ⟨by simpa using probe_snd_eq remote_addr 200 reason msg, ?_, ?_, ?_⟩
  · exact warned_of_mid remote_addr reason pre "fail" post (by decide)
  · exact warned_of_mid remote_addr reason pre "Fail" post (by decide)
  · exact warned_of_mid remote_addr reason pre "FAIL" post (by decide)

/-- C7: for every accepted local connection, the `create_connection` call
uses the URL `wss://{remote_addr}.scm.azurewebsites.net/AppServiceTunnel/Tunnel.ashx`,
enables `TCP_NODELAY`, carries the `Authorization: Basic` header, disables
certificate validation (`ssl.CERT_NONE`) and enables multithread-safe use;
each loop iteration opens the remote stream with exactly this configuration. -/
theorem remote_connection_config (remote_addr auth : String)
    (verbose : Nat → Bool) (i : Nat) :
    (buildConnection remote_addr auth).url =
      "wss://" ++ remote_addr ++ ".scm.azurewebsites.net/AppServiceTunnel/Tunnel.ashx" ∧
    (buildConnection remote_addr auth).sockopt = [(IPPROTO_TCP, TCP_NODELAY, 1)] ∧
    (buildConnection remote_addr auth).header = ["Authorization: Basic " ++ auth] ∧
    (buildConnection remote_addr auth).certReqs = CERT_NONE ∧
    (buildConnection remote_addr auth).enableMultithread = true ∧
    LoopEvent.remoteOpened (buildConnection remote_addr auth) ∈
      iterTrace (verbose i) (buildConnection remote_addr auth) :=
  ⟨rfl, rfl, rfl, rfl, rfl, by simp [iterTrace]⟩

/-- The slice `buf[0:nbytes]` of the 4096-byte buffer after `recv_into`
delivered `data` is exactly `data`. -/
lemma recvSlice_eq (data : List Nat) : recvSlice data = data :=
  List.take_left data _

/-- The local-to-remote pump never lets an exception escape. -/
lemma listen_to_client_no_exn (s : List ClientCycle) :
    ∃ v, listen_to_client s = .ok v := by
  induction s with
  | nil => exact ⟨_, rfl⟩
  | cons c rest ih =>
    obtain ⟨v, hv⟩ := ih
    cases c with
    | ok data =>
      by_cases h : 0 < data.length <;>
        simp [listen_to_client, clientCycleBody, h, hv]
    | recvErr => simp [listen_to_client, clientCycleBody]
    | sendErr data =>
      by_cases h : 0 < data.length <;>
        simp [listen_to_client, clientCycleBody, h]

/-- The remote-to-local pump never lets an exception escape. -/
lemma listen_to_web_socket_no_exn (t : List WsCycle) :
    ∃ v, listen_to_web_socket t = .ok v := by
  induction t with
  | nil => exact ⟨_, rfl⟩
  | cons c rest ih =>
    obtain ⟨v, hv⟩ := ih
    cases c with
    | ok data =>
      by_cases h : 0 < data.length <;>
        simp [listen_to_web_socket, wsCycleBody, h, hv]
    | recvErr => simp [listen_to_web_socket, wsCycleBody]
    | sendErr data =>
      by_cases h : 0 < data.length <;>
        simp [listen_to_web_socket, wsCycleBody, h]

/-- C1: a cycle whose blocking read delivers `d` with `0 < |d| ≤ 4096` sends
exactly `d`, unmodified, as one binary message on the remote stream and then
behaves like the remaining pump; a zero-byte read closes the local socket and
the remote stream and stops the pump. -/
theorem local_pump_forwards_each_chunk (d : List Nat) (rest : List ClientCycle)
    (h1 : 0 < d.length) (h2 : d.length ≤ 4096) :
    listen_to_client (.ok d :: rest) =
      Except.map (fun p => (RelayEvent.sentBinary d :: p.1, p.2))
        (listen_to_client rest) ∧
    listen_to_client (.ok [] :: rest) =
      .ok ([.closedClient, .closedWs], .finished none) := by
  constructor
  · obtain ⟨v, hv⟩ := listen_to_client_no_exn rest
    simp [listen_to_client, clientCycleBody, h1, recvSlice_eq, hv, Except.map]
  · simp [listen_to_client, clientCycleBody]

/-- C1 witness at the chunk `PING` (bytes 80 73 78 71). -/
theorem local_pump_forwards_each_chunk_witness :
    listen_to_client [.ok [80, 73, 78, 71]] =
      Except.map (fun p => (RelayEvent.sentBinary [80, 73, 78, 71] :: p.1, p.2))
        (listen_to_client []) ∧
    listen_to_client [.ok []] =
      .ok ([.closedClient, .closedWs], .finished none) :=
  local_pump_forwards_each_chunk [80, 73, 78, 71] [] (by decide) (by decide)

/-- C2: a cycle whose blocking receive delivers a non-empty message `m`
writes the full bytes of `m` to the local socket before anything from the
next receive happens, and then behaves like the remaining pump; an empty
message closes the local socket and the remote stream and stops the pump. -/
theorem ws_pump_writes_full_message (m : List Nat) (rest : List WsCycle)
    (hm : 0 < m.length) :
    listen_to_web_socket (.ok m :: rest) =
      Except.map (fun p => (RelayEvent.sentAll m :: p.1, p.2))
        (listen_to_web_socket rest) ∧
    listen_to_web_socket (.ok [] :: rest) =
      .ok ([.closedClient, .closedWs], .finished none) := by
  constructor
  · obtain ⟨v, hv⟩ := listen_to_web_socket_no_exn rest
    simp [listen_to_web_socket, wsCycleBody, hm, hv, Except.map]
  · simp [listen_to_web_socket, wsCycleBody]

/-- C2 witness at the message `PONG` (bytes 80 79 78 71). -/
theorem ws_pump_writes_full_message_witness :
    listen_to_web_socket [.ok [80, 79, 78, 71]] =
      Except.map (fun p => (RelayEvent.sentAll [80, 79, 78, 71] :: p.1, p.2))
        (listen_to_web_socket []) ∧
    listen_to_web_socket [.ok []] =
      .ok ([.closedClient, .closedWs], .finished none) :=
  ws_pump_writes_full_message [80, 79, 78, 71] [] (by decide)

/-- C3: neither pump ever returns an exception to its caller, and a cycle in
which the read/receive or the send raises is handled at the pump boundary:
the traceback is logged, both the local socket and the remote stream are
closed, and the pump returns `False` instead of re-raising. -/
theorem pump_errors_never_propagate (s : List ClientCycle) (t : List WsCycle)
    (d m : List Nat) (hd : 0 < d.length) (hm : 0 < m.length) :
    (∃ v, listen_to_client s = .ok v) ∧
    (∃ v, listen_to_web_socket t = .ok v) ∧
    listen_to_client (.recvErr :: s) =
      .ok ([.tracebackPrinted, .closedClient, .closedWs], .finished (some false)) ∧
    listen_to_client (.sendErr d :: s) =
      .ok ([.tracebackPrinted, .closedClient, .closedWs], .finished (some false)) ∧
    listen_to_web_socket (.recvErr :: t) =
      .ok ([.tracebackPrinted, .closedClient, .closedWs], .finished (some false)) ∧
    listen_to_web_socket (.sendErr m :: t) =
      .ok ([.tracebackPrinted, .closedClient, .closedWs], .finished (some false)) := by
  refine ⟨listen_to_client_no_exn s, listen_to_web_socket_no_exn t, ?_, ?_, ?_, ?_⟩
  · simp [listen_to_client, clientCycleBody]
  · simp [listen_to_client, clientCycleBody, hd]
  · simp [listen_to_web_socket, wsCycleBody]
  · simp [listen_to_web_socket, wsCycleBody, hm]

/-- C3 witness at one-byte payloads. -/
theorem pump_errors_never_propagate_witness :
    (∃ v, listen_to_client [] = .ok v) ∧
    (∃ v, listen_to_web_socket [] = .ok v) ∧
    listen_to_client [.recvErr] =
      .ok ([.tracebackPrinted, .closedClient, .closedWs], .finished (some false)) ∧
    listen_to_client [.sendErr [1]] =
      .ok ([.tracebackPrinted, .closedClient, .closedWs], .finished (some false)) ∧
    listen_to_web_socket [.recvErr] =
      .ok ([.tracebackPrinted, .closedClient, .closedWs], .finished (some false)) ∧
    listen_to_web_socket [.sendErr [2]] =
      .ok ([.tracebackPrinted, .closedClient, .closedWs], .finished (some false)) :=
  pump_errors_never_propagate [] [] [1] [2] (by decide) (by decide)

/-- A well-bracketed stretch of loop trace: the running ConnectionPair count
stays at most 1 on every prefix and returns to 0 at the end. -/
def BoundedTrace (l : List LoopEvent) : Prop :=
  (∀ k, (l.take k).foldl pairStep 0 ≤ 1) ∧ l.foldl pairStep 0 = 0

/-- Well-bracketed stretches compose. -/
lemma boundedTrace_append (l1 l2 : List LoopEvent)
    (h1 : BoundedTrace l1) (h2 : BoundedTrace l2) : BoundedTrace (l1 ++ l2) := by
  constructor
  · intro k
    by_cases hk : k ≤ l1.length
    · rw [List.take_append_eq_append_take, Nat.sub_eq_zero_of_le hk,
        List.take_zero, List.append_nil]
      exact h1.1 k
    · rw [List.take_append_eq_append_take,
        List.take_of_length_le (Nat.le_of_lt (Nat.lt_of_not_le hk)),
        List.foldl_append, h1.2]
      exact h2.1 _
  · rw [List.foldl_append, h1.2]
    exact h2.2

/-- One accept-loop iteration is well bracketed: the pair opened at
`accepted` is retired when the second pump thread is joined, and in between
the count is exactly 1. -/
lemma boundedTrace_iter (verbose : Bool) (cfg : ConnectionConfig) :
    BoundedTrace (iterTrace verbose cfg) := by
  constructor
  · intro k
    match k with
    | 0 => simp [iterTrace, pairStep]
    | 1 => simp [iterTrace, pairStep]
    | 2 => simp [iterTrace, pairStep]
    | 3 => simp [iterTrace, pairStep]
    | 4 => simp [iterTrace, pairStep]
    | 5 => simp [iterTrace, pairStep]
    | 6 => simp [iterTrace, pairStep]
    | 7 => simp [iterTrace, pairStep]
    | n + 8 =>
      rw [List.take_of_length_le (by simp [iterTrace])]
      simp [iterTrace, pairStep]
  · simp [iterTrace, pairStep]

/-- Any number of accept-loop iterations is well bracketed. -/
lemma boundedTrace_loopFrom (verbose : Nat → Bool) (cfg : ConnectionConfig) :
    ∀ n i, BoundedTrace (loopFrom verbose cfg i n)
  | 0, _ => ⟨fun k => by simp [loopFrom], by simp [loopFrom]⟩
  | n + 1, i =>
    boundedTrace_append _ _ (boundedTrace_iter (verbose i) cfg)
      (boundedTrace_loopFrom verbose cfg n (i + 1))

/-- C9: every iteration of the session loop accepts exactly one client on
the backlog-100 listener, sets a 60-second timeout on it, opens one fresh
remote stream, starts both pump threads and joins both before the next
accept — so after every prefix of the loop trace at most one ConnectionPair
is active. -/
theorem session_loop_single_pair (verbose : Nat → Bool) (cfg : ConnectionConfig)
    (iters n : Nat) :
    listen verbose cfg iters =
      LoopEvent.listenCalled 100 :: loopFrom verbose cfg 0 iters ∧
    (∀ i, iterTrace (verbose i) cfg =
      [.accepted, .setTimeoutSecs 60, .tracingSet (verbose i), .remoteOpened cfg,
       .startedDebuggerThread, .startedWebSocketThread,
       .joinedDebuggerThread, .joinedWebSocketThread]) ∧
    activeAfter ((listen verbose cfg iters).take n) ≤ 1 := by
  refine ⟨rfl, fun i => rfl, ?_⟩
  have hb := boundedTrace_loopFrom verbose cfg iters 0
  match n with
  | 0 => simp [activeAfter]
  | k + 1 =>
    have ht : (listen verbose cfg iters).take (k + 1)
        = LoopEvent.listenCalled 100 :: (loopFrom verbose cfg 0 iters).take k := rfl
    rw [ht]
    simpa [activeAfter, pairStep] using hb.1 k

end Tunnel
